import Mathlib

/-!
Verification development for the video-converter-service job pipeline.

The definitions below are a shallow embedding of the Go sources:
pkg/models/models.go (data model), internal/worker/worker.go (worker pool,
job executor), internal/worker/helpers.go (download, validate, upload),
internal/transcoder (orchestrator, encoder argument construction, progress
parsing) and the storage package (HTTP backend).  Machine integers are
modelled as Nat, Go float64 progress values as Rat, Go time.Time values as
Option Nat timestamps, and filesystem or process effects as explicit
environment records that fix the outcome of each effectful call.
-/

namespace VCS

/-! ## Data model: pkg/models/models.go -/

/-- JobState from pkg/models/models.go: the five possible states of a job. -/
inductive JobState
  | pending
  | processing
  | completed
  | failed
  | cancelled
deriving DecidableEq, Repr

/-- JobStatus from pkg/models/models.go.  Progress is a Go float64 in the
source, modelled as Rat; StartedAt and CompletedAt are time.Time values,
modelled as Option Nat (none stands for the Go zero time, which Go treats
as unset). -/
structure JobStatus where
  state : JobState
  message : String
  progress : Rat
  startedAt : Option Nat
  completedAt : Option Nat
  error : String
deriving DecidableEq, Repr

/-- SourceConfig from pkg/models/models.go. -/
structure SourceConfig where
  uri : String
  type : String
  checksum : String
deriving DecidableEq, Repr

/-- ConversionJob from pkg/models/models.go (metadata map omitted: no claim
mentions it). -/
structure ConversionJob where
  jobID : String
  videoID : String
  template : String
  source : SourceConfig
  createdAt : Nat
  status : JobStatus
deriving DecidableEq, Repr

/-- OutputFile from pkg/models/models.go. -/
structure OutputFile where
  path : String
  size : Nat
  checksum : String
  mimeType : String
deriving DecidableEq, Repr

/-- ConversionOutput from pkg/models/models.go (metadata modelled as an
association list). -/
structure ConversionOutput where
  name : String
  type : String
  profile : String
  files : List OutputFile
  metadata : List (String × String)
deriving DecidableEq, Repr

/-! ## Configuration: internal/config/config.go -/

/-- ProfileConfig from internal/config/config.go. -/
structure ProfileConfig where
  name : String
  width : Nat
  height : Nat
  videoBitrateKbps : Nat
  audioBitrateKbps : Nat
deriving DecidableEq, Repr

/-- OutputConfig from internal/config/config.go.  The Profile field is the
single-profile alternative to the Profiles list. -/
structure OutputConfig where
  name : String
  package : String
  profiles : List ProfileConfig
  profile : String
  segmentLengthS : Nat
  container : String
  destination : String
deriving DecidableEq, Repr

/-- JobFFmpegConfig from internal/config/config.go. -/
structure JobFFmpegConfig where
  preset : String
  hwAccel : String
  extraArgs : List String
deriving DecidableEq, Repr

/-- NotificationConfig from internal/config/config.go. -/
structure NotificationConfig where
  webhookURL : String
  onComplete : Bool
  onFailure : Bool
deriving DecidableEq, Repr

/-- JobTemplate from internal/config/config.go. -/
structure JobTemplate where
  outputs : List OutputConfig
  ffmpeg : JobFFmpegConfig
  notifications : NotificationConfig
deriving DecidableEq, Repr

/-! ## Worker pool queue: internal/worker/worker.go -/

/-- The job queue of a Worker.  worker.go New builds the channel with
make(chan ..., cfg.Processing.MaxConcurrentJobs*2); a Go buffered channel
is a FIFO of that fixed capacity, modelled as a list bounded by
capacity. -/
structure WorkerQueue where
  capacity : Nat
  queue : List ConversionJob
deriving DecidableEq, Repr

/-- worker.go New: the queue buffer is created with capacity
MaxConcurrentJobs * 2 and starts empty. -/
def newWorkerQueue (maxConcurrentJobs : Nat) : WorkerQueue :=
  { capacity := maxConcurrentJobs * 2, queue := [] }

/-- The JobStatus literal assigned by worker.go SubmitJob: composite
literal with State and Message set, every other field the Go zero
value. -/
def submittedStatus : JobStatus :=
  { state := JobState.pending
    message := "Job queued for processing"
    progress := 0
    startedAt := none
    completedAt := none
    error := "" }

/-- worker.go SubmitJob: stamps CreatedAt and the pending status on the job
unconditionally, then a select with a default branch either enqueues the
job (buffer not full) or returns the queue-full error immediately without
blocking.  Returns the call result, the queue after the call, and the job
record as mutated by the call. -/
def SubmitJob (w : WorkerQueue) (job : ConversionJob) (now : Nat) :
    Except String Unit × WorkerQueue × ConversionJob :=
  let job' := { job with createdAt := now, status := submittedStatus }
  if w.queue.length < w.capacity then
    (Except.ok (), { w with queue := w.queue ++ [job'] }, job')
  else
    (Except.error "job queue is full", w, job')

/-- worker.go workerLoop receives from the channel: the oldest queued job
is delivered first (FIFO). -/
def dequeueJob (w : WorkerQueue) : Option (ConversionJob × WorkerQueue) :=
  match w.queue with
  | [] => none
  | j :: rest => some (j, { w with queue := rest })

/-! ## Progress computation: internal/transcoder/video_info.go -/

/-- video_info.go runFFmpegWithProgress: progressPercent starts at the
float64 zero value and is set to frame divided by totalFrames only when
totalFrames is positive; there is no clamping. -/
def progressPercent (frame totalFrames : Nat) : Rat :=
  if 0 < totalFrames then (frame : Rat) / (totalFrames : Rat) else 0

/-- worker.go executeConversion, progress callback: the value handed to the
callback is stored into job.Status.Progress unchanged. -/
def applyProgressCallback (job : ConversionJob) (frame totalFrames : Nat) :
    ConversionJob :=
  { job with status :=
      { job.status with progress := progressPercent frame totalFrames } }

/-! ## Builtin profile catalog: transcoder getProfileByName -/

/-- The 720p entry of the builtin profile map in getProfileByName. -/
def profile720p : ProfileConfig :=
  { name := "720p", width := 1280, height := 720
    videoBitrateKbps := 2500, audioBitrateKbps := 128 }

/-- The builtin profile map literal of getProfileByName, as an association
list (lookup behaviour of a Go map literal with distinct keys). -/
def builtinProfiles : List (String × ProfileConfig) :=
  [ ("240p", { name := "240p", width := 426, height := 240
               videoBitrateKbps := 400, audioBitrateKbps := 64 })
  , ("360p", { name := "360p", width := 640, height := 360
               videoBitrateKbps := 800, audioBitrateKbps := 96 })
  , ("480p", { name := "480p", width := 854, height := 480
               videoBitrateKbps := 1200, audioBitrateKbps := 128 })
  , ("720p", profile720p)
  , ("1080p", { name := "1080p", width := 1920, height := 1080
                videoBitrateKbps := 5000, audioBitrateKbps := 128 }) ]

/-- getProfileByName: look the name up in the builtin map; when the name is
absent return the 720p entry of the same map. -/
def getProfileByName (profileName : String) : ProfileConfig :=
  match builtinProfiles.lookup profileName with
  | some p => p
  | none => profile720p

/-! ## Encoder invocation construction (transcoder package) -/

/-- buildProgressiveFFmpegArgs from the transcoder package: the FFmpeg
argument vector for one progressive profile.  Sprintf formatting of
integers is modelled with toString; the argument order and every
conditional append mirror the source. -/
def buildProgressiveFFmpegArgs (inputPath outputPath : String)
    (profile : ProfileConfig) (ffmpegConfig : JobFFmpegConfig) :
    List String :=
  let args := ["-i", inputPath, "-c:v", "libx264", "-c:a", "aac"]
  let args := if ffmpegConfig.hwAccel ≠ "" then
      ["-hwaccel", ffmpegConfig.hwAccel] ++ args
    else args
  let args := args ++
    [ "-vf", "scale=" ++ toString profile.width ++ ":" ++
        toString profile.height
    , "-b:v", toString profile.videoBitrateKbps ++ "k"
    , "-maxrate", toString profile.videoBitrateKbps ++ "k"
    , "-bufsize", toString (profile.videoBitrateKbps * 2) ++ "k"
    , "-profile:v", "high"
    , "-level", "4.0" ]
  let args := if 0 < profile.audioBitrateKbps then
      args ++ ["-b:a", toString profile.audioBitrateKbps ++ "k"]
    else
      args ++ ["-b:a", "128k"]
  let args := args ++ ["-movflags", "+faststart", "-pix_fmt", "yuv420p"]
  let args := if ffmpegConfig.preset ≠ "" then
      args ++ ["-preset", ffmpegConfig.preset]
    else args
  let args := if ffmpegConfig.extraArgs ≠ [] then
      args ++ ffmpegConfig.extraArgs
    else args
  args ++ ["-y", outputPath]

/-- buildHLSFFmpegArgs from the transcoder package: the FFmpeg argument
vector for one HLS profile.  filepath.Join is modelled as joining with a
slash; the Sprintf escape double-percent-03d renders as the literal
percent-03d segment-number placeholder. -/
def buildHLSFFmpegArgs (inputPath outputDir : String)
    (profile : ProfileConfig) (segmentLength : Nat)
    (ffmpegConfig : JobFFmpegConfig) : List String :=
  let profileName := profile.name
  let playlistPath := outputDir ++ "/" ++ profileName ++ ".m3u8"
  let segmentPath := outputDir ++ "/" ++ profileName ++ "_%03d.ts"
  let args := ["-i", inputPath, "-c:v", "libx264", "-c:a", "aac"]
  let args := if ffmpegConfig.hwAccel ≠ "" then
      ["-hwaccel", ffmpegConfig.hwAccel] ++ args
    else args
  let args := args ++
    [ "-vf", "scale=" ++ toString profile.width ++ ":" ++
        toString profile.height
    , "-b:v", toString profile.videoBitrateKbps ++ "k"
    , "-maxrate", toString profile.videoBitrateKbps ++ "k"
    , "-bufsize", toString (profile.videoBitrateKbps * 2) ++ "k"
    , "-profile:v", "main"
    , "-level", "4.0" ]
  let args := if 0 < profile.audioBitrateKbps then
      args ++ ["-b:a", toString profile.audioBitrateKbps ++ "k"]
    else
      args ++ ["-b:a", "128k"]
  let args := args ++
    [ "-f", "hls"
    , "-hls_time", toString segmentLength
    , "-hls_list_size", "0"
    , "-hls_segment_filename", segmentPath
    , "-hls_flags", "independent_segments" ]
  let args := if ffmpegConfig.preset ≠ "" then
      args ++ ["-preset", ffmpegConfig.preset]
    else args
  let args := if ffmpegConfig.extraArgs ≠ [] then
      args ++ ffmpegConfig.extraArgs
    else args
  args ++ [playlistPath]

/-- getMimeType from the transcoder package: container format to MIME
type, defaulting to video/mp4. -/
def getMimeType (container : String) : String :=
  match container with
  | "mp4" => "video/mp4"
  | "webm" => "video/webm"
  | "mov" => "video/quicktime"
  | "avi" => "video/x-msvideo"
  | "mkv" => "video/x-matroska"
  | _ => "video/mp4"

/-! ## Master playlist: transcoder createMasterPlaylist -/

/-- The remainder of a master playlist entry after its bandwidth field:
resolution, name, and the rendition playlist reference. -/
def masterPlaylistEntryTail (p : ProfileConfig) : String :=
  ",RESOLUTION=" ++ toString p.width ++ "x" ++ toString p.height ++
    ",NAME=\"" ++ p.name ++ "\"\n" ++
    p.name ++ "/" ++ p.name ++ ".m3u8\n\n"

/-- The pair of WriteString calls the createMasterPlaylist loop performs
for one profile: the STREAM-INF line with bandwidth
(videoKbps + audioKbps) * 1000, then the rendition playlist reference. -/
def masterPlaylistEntry (p : ProfileConfig) : String :=
  "#EXT-X-STREAM-INF:BANDWIDTH=" ++
    toString ((p.videoBitrateKbps + p.audioBitrateKbps) * 1000) ++
    masterPlaylistEntryTail p

/-- createMasterPlaylist from the transcoder package: header lines
followed by one entry per profile in list order. -/
def createMasterPlaylist (profiles : List ProfileConfig) : String :=
  "#EXTM3U\n" ++ "#EXT-X-VERSION:6\n\n" ++
    String.join (profiles.map masterPlaylistEntry)

/-! ## Transcoding orchestrator (transcoder package)

The orchestrator shells out to FFmpeg and reads the filesystem.  Those
effects are fixed by a TranscodeEnv record: encodeOk says whether a given
FFmpeg invocation exits zero, statOk / fileSize / fileHash give the
os.Stat and checksum results createOutputFile observes for a path, and
segmentsFor gives the filepath.Glob result for the segment pattern of a
profile directory. -/

structure TranscodeEnv where
  encodeOk : List String → Bool
  statOk : String → Bool
  fileSize : String → Nat
  fileHash : String → String
  segmentsFor : String → List String

/-- createOutputFile from the transcoder package: stat the path and
compute the content hash, packaging both into an OutputFile; a stat
failure is an error. -/
def createOutputFile (env : TranscodeEnv) (filePath mimeType : String) :
    Except String OutputFile :=
  if env.statOk filePath then
    Except.ok
      { path := filePath, size := env.fileSize filePath
        checksum := env.fileHash filePath, mimeType := mimeType }
  else
    Except.error "failed to get file info"

/-- transcodeProgressiveProfile: determine the container (mp4 when the
OutputSpec declares none), build the profile-named output path, run FFmpeg
with the progressive argument vector, then stat and hash the produced
file.  Also returns the argument vector actually passed to FFmpeg. -/
def transcodeProgressiveProfile (env : TranscodeEnv)
    (inputPath : String) (profile : ProfileConfig) (outputDir : String)
    (output : OutputConfig) (ffmpegConfig : JobFFmpegConfig) :
    Except String (OutputFile × List String) :=
  let container := if output.container = "" then "mp4" else output.container
  let outputFileName := profile.name ++ "." ++ container
  let outputPath := outputDir ++ "/" ++ outputFileName
  let args := buildProgressiveFFmpegArgs inputPath outputPath profile
    ffmpegConfig
  if env.encodeOk args then
    match createOutputFile env outputPath (getMimeType container) with
    | Except.ok f => Except.ok (f, args)
    | Except.error e =>
        Except.error ("failed to create output file info: " ++ e)
  else
    Except.error "ffmpeg execution failed"

/-- The loop body of transcodeProgressive over the Profiles list: each
profile is encoded in order and the first failure aborts the whole
output. -/
def transcodeProgressiveProfiles (env : TranscodeEnv) (inputPath : String)
    (outputDir : String) (output : OutputConfig)
    (ffmpegConfig : JobFFmpegConfig) :
    List ProfileConfig → Except String (List OutputFile × List (List String))
  | [] => Except.ok ([], [])
  | p :: rest =>
    match transcodeProgressiveProfile env inputPath p outputDir output
        ffmpegConfig with
    | Except.error e =>
        Except.error ("failed to transcode progressive profile: " ++ e)
    | Except.ok (f, args) =>
      match transcodeProgressiveProfiles env inputPath outputDir output
          ffmpegConfig rest with
      | Except.error e => Except.error e
      | Except.ok (fs, invs) => Except.ok (f :: fs, args :: invs)

/-- transcodeProgressive: with a non-empty Profiles list encode one MP4
file per profile; with only the single Profile name resolve it through
getProfileByName and encode one rendition; with neither, fail.  The second
component collects every FFmpeg invocation issued. -/
def transcodeProgressive (env : TranscodeEnv) (inputPath : String)
    (output : OutputConfig) (outputDir : String)
    (ffmpegConfig : JobFFmpegConfig) :
    Except String (ConversionOutput × List (List String)) :=
  if output.profiles ≠ [] then
    match transcodeProgressiveProfiles env inputPath outputDir output
        ffmpegConfig output.profiles with
    | Except.error e => Except.error e
    | Except.ok (files, invs) =>
      Except.ok
        ( { name := output.name, type := "progressive"
            profile := output.profile, files := files
            metadata := [("package", "progressive"),
                         ("container", output.container)] }
        , invs )
  else if output.profile ≠ "" then
    match transcodeProgressiveProfile env inputPath
        (getProfileByName output.profile) outputDir output ffmpegConfig with
    | Except.error e =>
        Except.error ("failed to transcode progressive profile: " ++ e)
    | Except.ok (f, args) =>
      Except.ok
        ( { name := output.name, type := "progressive"
            profile := output.profile, files := [f]
            metadata := [("package", "progressive"),
                         ("container", output.container)] }
        , [args] )
  else
    Except.error "no profiles specified for progressive output"

/-- transcodeHLSProfile: create the profile directory, default the segment
length to 6 seconds when unset, run FFmpeg with the HLS argument vector,
then collect the rendition playlist (silently skipped on stat failure,
as in the source) and the globbed segment files (each silently skipped on
stat failure).  Also returns the FFmpeg invocation. -/
def transcodeHLSProfile (env : TranscodeEnv) (inputPath : String)
    (profile : ProfileConfig) (outputDir : String) (output : OutputConfig)
    (ffmpegConfig : JobFFmpegConfig) :
    Except String (List OutputFile × List String) :=
  let profileDir := outputDir ++ "/" ++ profile.name
  let segmentLength := if output.segmentLengthS = 0 then 6
    else output.segmentLengthS
  let args := buildHLSFFmpegArgs inputPath profileDir profile segmentLength
    ffmpegConfig
  if env.encodeOk args then
    let playlistPath := profileDir ++ "/" ++ profile.name ++ ".m3u8"
    let playlistFiles :=
      match createOutputFile env playlistPath
          "application/vnd.apple.mpegurl" with
      | Except.ok f => [f]
      | Except.error _ => []
    let segmentFiles := (env.segmentsFor profileDir).filterMap fun s =>
      match createOutputFile env s "video/mp2t" with
      | Except.ok f => some f
      | Except.error _ => none
    Except.ok (playlistFiles ++ segmentFiles, args)
  else
    Except.error "ffmpeg execution failed"

/-- The loop body of transcodeHLS over the Profiles list: each rung of the
ladder is encoded in declared order and the first failure aborts the whole
output. -/
def transcodeHLSProfiles (env : TranscodeEnv) (inputPath : String)
    (outputDir : String) (output : OutputConfig)
    (ffmpegConfig : JobFFmpegConfig) :
    List ProfileConfig → Except String (List OutputFile × List (List String))
  | [] => Except.ok ([], [])
  | p :: rest =>
    match transcodeHLSProfile env inputPath p outputDir output
        ffmpegConfig with
    | Except.error e =>
        Except.error ("failed to transcode HLS profile: " ++ e)
    | Except.ok (fs, args) =>
      match transcodeHLSProfiles env inputPath outputDir output
          ffmpegConfig rest with
      | Except.error e => Except.error e
      | Except.ok (fs', invs) => Except.ok (fs ++ fs', args :: invs)

/-- transcodeHLS: with a non-empty Profiles list, write exactly one master
playlist (content from createMasterPlaylist over the declared profiles in
declared order) and then encode every profile; with only the single
Profile name, resolve it through getProfileByName and encode one rendition
without a master playlist; with neither, fail.  Besides the
ConversionOutput the model returns the list of playlist writes performed
(path and content) and the FFmpeg invocations issued. -/
def transcodeHLS (env : TranscodeEnv) (inputPath : String)
    (output : OutputConfig) (outputDir : String)
    (ffmpegConfig : JobFFmpegConfig) :
    Except String
      (ConversionOutput × List (String × String) × List (List String)) :=
  if output.profiles ≠ [] then
    let masterPlaylistPath := outputDir ++ "/" ++ "master.m3u8"
    let masterContent := createMasterPlaylist output.profiles
    match createOutputFile env masterPlaylistPath
        "application/vnd.apple.mpegurl" with
    | Except.error e =>
        Except.error ("failed to create master playlist file info: " ++ e)
    | Except.ok masterFile =>
      match transcodeHLSProfiles env inputPath outputDir output
          ffmpegConfig output.profiles with
      | Except.error e => Except.error e
      | Except.ok (files, invs) =>
        Except.ok
          ( { name := output.name, type := "hls"
              profile := output.profile
              files := masterFile :: files
              metadata := [("package", "hls")] }
          , [(masterPlaylistPath, masterContent)]
          , invs )
  else if output.profile ≠ "" then
    match transcodeHLSProfile env inputPath
        (getProfileByName output.profile) outputDir output ffmpegConfig with
    | Except.error e =>
        Except.error ("failed to transcode HLS profile: " ++ e)
    | Except.ok (fs, args) =>
      Except.ok
        ( { name := output.name, type := "hls"
            profile := output.profile, files := fs
            metadata := [("package", "hls")] }
        , []
        , [args] )
  else
    Except.error "no profiles specified for HLS output"

/-! ## Job executor pipeline: internal/worker/worker.go processJob and
executeConversion

The per-job pipeline touches the filesystem and the network; a
PipelineEnv fixes the outcome of each stage: whether os.Stat finds the
local source path, whether validation passes, whether the transcode and
the upload succeed.  The model tracks whether the job-scoped temporary
workspace directory (tempRoot joined with the job id) exists. -/

structure PipelineEnv where
  sourceExists : Bool
  validateOk : Bool
  transcodeOk : Bool
  uploadOk : Bool
deriving DecidableEq, Repr

/-- The pipeline stages of executeConversion, in execution order. -/
inductive Stage
  | download
  | validate
  | transcode
  | upload
  | cleanup
  | notify
deriving DecidableEq, Repr

/-- LocalStorage.DownloadFile (and the equivalent copyLocalFile helper)
for a local source: os.Stat the source path first and fail before any
directory is created when it does not exist; otherwise os.MkdirAll the
job-scoped temp directory and copy the source into it.  Returns the
download result together with whether the temp directory exists
afterwards, given whether it existed before. -/
def copyLocalFile (env : PipelineEnv) (tempDirExists : Bool) :
    Except String String × Bool :=
  if env.sourceExists then
    (Except.ok "source", true)
  else
    (Except.error "source file not found", tempDirExists)

/-- The outcome of executeConversion: the Go error return, whether the
job-scoped temporary workspace still exists, and the stages that were
executed. -/
structure ExecOutcome where
  result : Except String Unit
  tempDirExists : Bool
  stages : List Stage
deriving Repr

/-- worker.go executeConversion: download, validate, transcode, upload in
sequence, each failure returning immediately with a stage-qualified
error; os.RemoveAll on the job temp directory runs only after a
successful upload (step 5.5), followed by best-effort notification.
The transcode step itself creates the job temp directory when it runs. -/
def executeConversion (env : PipelineEnv) : ExecOutcome :=
  match copyLocalFile env false with
  | (Except.error msg, td) =>
    { result := Except.error ("failed to download source file: " ++ msg)
      tempDirExists := td
      stages := [Stage.download] }
  | (Except.ok _, _) =>
    if ¬ env.validateOk then
      { result := Except.error
          "source file validation failed: source file is empty"
        tempDirExists := true
        stages := [Stage.download, Stage.validate] }
    else if ¬ env.transcodeOk then
      { result := Except.error "transcoding failed: ffmpeg execution failed"
        tempDirExists := true
        stages := [Stage.download, Stage.validate, Stage.transcode] }
    else if ¬ env.uploadOk then
      { result := Except.error
          "failed to upload output files: upload error"
        tempDirExists := true
        stages := [Stage.download, Stage.validate, Stage.transcode,
                   Stage.upload] }
    else
      { result := Except.ok ()
        tempDirExists := false
        stages := [Stage.download, Stage.validate, Stage.transcode,
                   Stage.upload, Stage.cleanup, Stage.notify] }

/-- The status update at the top of worker.go processJob: mark the job
processing, stamp StartedAt, set the message. -/
def markProcessing (job : ConversionJob) (startTime : Nat) : ConversionJob :=
  { job with status :=
      { job.status with
        state := JobState.processing
        startedAt := some startTime
        message := "Processing started" } }

/-- The outcome of processJob: the job record after the call, the pipeline
stages that were executed, and whether the job-scoped temporary workspace
exists afterwards. -/
structure ProcessOutcome where
  job : ConversionJob
  stages : List Stage
  tempDirExists : Bool
deriving DecidableEq, Repr

/-- worker.go processJob: mark the job processing, resolve the template
from the catalog (failure is fatal and runs no pipeline stage), run
executeConversion, and mark the job failed with the error or completed
with progress 1.0; CompletedAt is stamped in both terminal branches. -/
def processJob (catalog : List (String × JobTemplate)) (env : PipelineEnv)
    (job : ConversionJob) (startTime endTime : Nat) : ProcessOutcome :=
  let job := markProcessing job startTime
  match catalog.lookup job.template with
  | none =>
    { job := { job with status :=
        { job.status with
          state := JobState.failed
          error := "Job template '" ++ job.template ++ "' not found"
          completedAt := some endTime } }
      stages := []
      tempDirExists := false }
  | some _ =>
    let o := executeConversion env
    match o.result with
    | Except.error msg =>
      { job := { job with status :=
          { job.status with
            state := JobState.failed
            error := msg
            completedAt := some endTime } }
        stages := o.stages
        tempDirExists := o.tempDirExists }
    | Except.ok _ =>
      { job := { job with status :=
          { job.status with
            state := JobState.completed
            progress := 1
            completedAt := some endTime
            message := "Conversion completed successfully" } }
        stages := o.stages
        tempDirExists := o.tempDirExists }

/-- The sequence of status records written to a job over its lifecycle:
the pending status stamped by SubmitJob, the processing status stamped at
the top of processJob, and the terminal status processJob leaves. -/
def jobLifecycleTrace (catalog : List (String × JobTemplate))
    (env : PipelineEnv) (job : ConversionJob)
    (submitTime startTime endTime : Nat) : List JobStatus :=
  let submitted := (SubmitJob (newWorkerQueue 1) job submitTime).2.2
  [ submitted.status
  , (markProcessing submitted startTime).status
  , (processJob catalog env submitted startTime endTime).job.status ]

/-- The forward state transitions the spec admits:
pending to processing, processing to completed, processing to failed. -/
def forwardTransition : JobState → JobState → Bool
  | JobState.pending, JobState.processing => true
  | JobState.processing, JobState.completed => true
  | JobState.processing, JobState.failed => true
  | _, _ => false

/-- Terminal job states. -/
def terminalState : JobState → Bool
  | JobState.completed => true
  | JobState.failed => true
  | JobState.cancelled => true
  | _ => false

/-! ## HTTP storage backend (storage package)

HTTPStorage in the storage package.  The remote side a backend could
mutate is modelled as an abstract association list of paths to contents;
the read-only operations of HTTPStorage never touch it.  DownloadFile
performs an HTTP GET whose observable outcome is fixed by an
HTTPDownloadEnv. -/

def RemoteStore : Type := List (String × String)

structure HTTPDownloadEnv where
  statusCode : Nat
  mkdirOk : Bool
  createOk : Bool
  copyOk : Bool

/-- filepath.Ext: the suffix of the path starting at the final dot of the
final path element, empty when that element has no dot. -/
def fileExt (path : String) : String :=
  String.mk ((path.toList.foldl (fun acc c =>
    if c = '/' then none
    else if c = '.' then some ['.']
    else match acc with
      | none => none
      | some l => some (l ++ [c])) none).getD [])

/-- HTTPStorage getFileExtension: extension from the URL when present,
otherwise from the Content-Type header, defaulting to mp4. -/
def httpGetFileExtension (url contentType : String) : String :=
  if fileExt url ≠ "" then fileExt url
  else match contentType with
    | "video/mp4" => ".mp4"
    | "video/quicktime" => ".mov"
    | "video/x-msvideo" => ".avi"
    | "video/x-matroska" => ".mkv"
    | "video/webm" => ".webm"
    | _ => ".mp4"

/-- HTTPStorage.DownloadFile: GET the source URI, fail on a non-200
status, create the job temp directory and the local file, and stream the
body into it, returning the local path. -/
def HTTPStorageDownloadFile (env : HTTPDownloadEnv) (tempDir : String)
    (sourceURI jobID contentType : String) : Except String String :=
  if env.statusCode ≠ 200 then
    Except.error ("HTTP request failed with status: " ++
      toString env.statusCode)
  else if ¬ env.mkdirOk then
    Except.error "failed to create temp directory"
  else if ¬ env.createOk then
    Except.error "failed to create temp file"
  else if ¬ env.copyOk then
    Except.error "failed to write file"
  else
    Except.ok (tempDir ++ "/" ++ jobID ++ "/" ++ "source" ++
      httpGetFileExtension sourceURI contentType)

/-- HTTPStorage.UploadFile: unconditional error, no effect. -/
def HTTPStorageUploadFile (s : RemoteStore)
    (sourcePath destinationPath : String) :
    Except String Unit × RemoteStore :=
  (Except.error "upload not supported for HTTP storage", s)

/-- HTTPStorage.UploadFiles: unconditional error, no effect. -/
def HTTPStorageUploadFiles (s : RemoteStore)
    (fileMap : List (String × String)) :
    Except String Unit × RemoteStore :=
  (Except.error "upload not supported for HTTP storage", s)

/-- HTTPStorage.DeleteFile: unconditional error, no effect. -/
def HTTPStorageDeleteFile (s : RemoteStore) (destinationPath : String) :
    Except String Unit × RemoteStore :=
  (Except.error "delete not supported for HTTP storage", s)

/-- HTTPStorage.ListFiles: unconditional error, no effect. -/
def HTTPStorageListFiles (s : RemoteStore) (pathStart : String) :
    Except String (List String) × RemoteStore :=
  (Except.error "list files not supported for HTTP storage", s)

/-! ## Shared sample data and helper lemmas -/

/-- A concrete job used to instantiate witnesses. -/
def sampleJob : ConversionJob :=
  { jobID := "job-1", videoID := "vid-1", template := "default"
    source := { uri := "sample.mp4", type := "local", checksum := "" }
    createdAt := 0
    status := { state := JobState.pending, message := "", progress := 0
                startedAt := none, completedAt := none, error := "" } }

/-- A concrete template used to instantiate witnesses. -/
def sampleTemplate : JobTemplate :=
  { outputs := []
    ffmpeg := { preset := "", hwAccel := "", extraArgs := [] }
    notifications := { webhookURL := "", onComplete := false
                       onFailure := false } }

/-- An encoder-settings record with nothing configured. -/
def emptyFFmpegConfig : JobFFmpegConfig :=
  { preset := "", hwAccel := "", extraArgs := [] }

/-- A pipeline environment where every stage succeeds. -/
def allOkEnv : PipelineEnv :=
  { sourceExists := true, validateOk := true, transcodeOk := true
    uploadOk := true }

/-- A pipeline environment where source validation fails after a
successful download. -/
def validateFailEnv : PipelineEnv :=
  { sourceExists := true, validateOk := false, transcodeOk := true
    uploadOk := true }

theorem string_data_append (a b : String) :
    (a ++ b).data = a.data ++ b.data := rfl

theorem string_append3_ne_empty (a b c : String) (ha : a.data ≠ []) :
    a ++ b ++ c ≠ "" := by
  intro habs
  have hd : (a ++ b ++ c).data = "".data := congrArg String.data habs
  have he : (a ++ b ++ c).data = a.data ++ b.data ++ c.data := rfl
  have h0 : "".data = ([] : List Char) := rfl
  rw [he, h0] at hd
  rcases List.append_eq_nil.mp hd with ⟨h1, h2⟩
  rcases List.append_eq_nil.mp h1 with ⟨h3, h4⟩
  exact ha h3

theorem markProcessing_template (job : ConversionJob) (t : Nat) :
    (markProcessing job t).template = job.template := rfl

theorem SubmitJob_job (w : WorkerQueue) (job : ConversionJob) (now : Nat) :
    (SubmitJob w job now).2.2 =
      { job with createdAt := now, status := submittedStatus } := by
  unfold SubmitJob
  split <;> rfl

/-! ## Claim theorems -/

/-- Claim C2 counterexample: the progress value is the unclamped ratio of
the reported frame count to the approximate total, so a reported frame
count of 101 against an approximate total of 100 frames makes the value
written to job.status.progress exceed 1, refuting progress being in the
interval from 0 to 1 at all times. -/
theorem progressExceedsOneCounterexample :
    1 < progressPercent 101 100 ∧
    1 < (applyProgressCallback sampleJob 101 100).status.progress := by
  constructor <;> norm_num [progressPercent, applyProgressCallback]

/-- Claim C2 (amended): the progress value written to job.status.progress
is always nonnegative, is the processed-frame count divided by the
approximate total-frame count whenever that total is positive, is
non-decreasing in the frame count within one encode pass, and stays at
most 1 as long as the frame count does not exceed the approximate total;
it can exceed 1 when the frame count passes that approximate total. -/
theorem progressNonnegMonotone (frame frame' totalFrames : Nat)
    (hmono : frame ≤ frame') :
    0 ≤ progressPercent frame totalFrames ∧
    (0 < totalFrames →
      progressPercent frame totalFrames =
        (frame : Rat) / (totalFrames : Rat)) ∧
    progressPercent frame totalFrames ≤
      progressPercent frame' totalFrames ∧
    (frame ≤ totalFrames → progressPercent frame totalFrames ≤ 1) ∧
    (applyProgressCallback sampleJob frame totalFrames).status.progress =
      progressPercent frame totalFrames := by
  refine ⟨?_, ?_, ?_, ?_, rfl⟩
  · unfold progressPercent
    split
    · positivity
    · exact le_refl 0
  · intro ht
    unfold progressPercent
    simp [ht]
  · unfold progressPercent
    split
    · rename_i ht
      have hc : (0 : Rat) < (totalFrames : Rat) := by exact_mod_cast ht
      exact div_le_div_of_nonneg_right (by exact_mod_cast hmono) hc.le
    · exact le_refl 0
  · intro hbound
    unfold progressPercent
    split
    · rename_i ht
      have hc : (0 : Rat) < (totalFrames : Rat) := by exact_mod_cast ht
      exact (div_le_one hc).mpr (by exact_mod_cast hbound)
    · exact zero_le_one

/-- Witness for the amended claim C2 at frame counts 50 and 75 of an
approximate total of 100. -/
theorem progressNonnegMonotoneWitness :
    0 ≤ progressPercent 50 100 ∧
    (0 < 100 →
      progressPercent 50 100 = (50 : Rat) / (100 : Rat)) ∧
    progressPercent 50 100 ≤ progressPercent 75 100 ∧
    (50 ≤ 100 → progressPercent 50 100 ≤ 1) ∧
    (applyProgressCallback sampleJob 50 100).status.progress =
      progressPercent 50 100 :=
  progressNonnegMonotone 50 75 100 (by norm_num)

/-- Claim C3: SubmitJob always stamps the pending status on the job;
the call succeeds exactly when the queue buffer holds fewer jobs than its
fixed capacity, in which case the job is appended at the back of the FIFO,
and otherwise returns the queue-full error synchronously with the queue
unchanged; the buffer capacity is exactly twice the pool size; dequeueing
takes the oldest job first. -/
theorem submitJobQueueBehavior (w : WorkerQueue) (job : ConversionJob)
    (now : Nat) (n : Nat) :
    (SubmitJob w job now).2.2.status.state = JobState.pending ∧
    ((SubmitJob w job now).1 = Except.ok () ↔
      w.queue.length < w.capacity) ∧
    (w.queue.length < w.capacity →
      (SubmitJob w job now).2.1.queue =
        w.queue ++ [(SubmitJob w job now).2.2]) ∧
    (¬ w.queue.length < w.capacity →
      (SubmitJob w job now).1 = Except.error "job queue is full" ∧
      (SubmitJob w job now).2.1 = w) ∧
    (newWorkerQueue n).capacity = 2 * n ∧
    (∀ j rest, w.queue = j :: rest →
      dequeueJob w = some (j, { w with queue := rest })) := by
  refine ⟨?_, ?_, ?_, ?_, ?_, ?_⟩
  · unfold SubmitJob
    split <;> rfl
  · unfold SubmitJob
    split <;> rename_i h <;> simp [h]
  · intro h
    unfold SubmitJob
    simp [h]
  · intro h
    unfold SubmitJob
    simp [h]
  · simp [newWorkerQueue, Nat.mul_comm]
  · intro j rest h
    unfold dequeueJob
    simp [h]

/-- Witness for claim C3 on an empty two-slot queue. -/
theorem submitJobQueueBehaviorWitness :
    (SubmitJob (newWorkerQueue 1) sampleJob 0).2.2.status.state =
      JobState.pending ∧
    ((SubmitJob (newWorkerQueue 1) sampleJob 0).1 = Except.ok () ↔
      (newWorkerQueue 1).queue.length < (newWorkerQueue 1).capacity) ∧
    ((newWorkerQueue 1).queue.length < (newWorkerQueue 1).capacity →
      (SubmitJob (newWorkerQueue 1) sampleJob 0).2.1.queue =
        (newWorkerQueue 1).queue ++
          [(SubmitJob (newWorkerQueue 1) sampleJob 0).2.2]) ∧
    (¬ (newWorkerQueue 1).queue.length < (newWorkerQueue 1).capacity →
      (SubmitJob (newWorkerQueue 1) sampleJob 0).1 =
        Except.error "job queue is full" ∧
      (SubmitJob (newWorkerQueue 1) sampleJob 0).2.1 = newWorkerQueue 1) ∧
    (newWorkerQueue 1).capacity = 2 * 1 ∧
    (∀ j rest, (newWorkerQueue 1).queue = j :: rest →
      dequeueJob (newWorkerQueue 1) =
        some (j, { newWorkerQueue 1 with queue := rest })) :=
  submitJobQueueBehavior (newWorkerQueue 1) sampleJob 0 1

/-- Claim C9: every mutating or enumerating operation of the HTTP storage
backend — single upload, batch upload, delete, list — returns an explicit
non-empty error and leaves the backend state unchanged, while the download
operation can succeed (witnessed by a 200 response). -/
theorem httpStorageReadOnly (s : RemoteStore)
    (sourcePath destinationPath pathStart : String)
    (fileMap : List (String × String)) :
    ((HTTPStorageUploadFile s sourcePath destinationPath).1 =
        Except.error "upload not supported for HTTP storage" ∧
      (HTTPStorageUploadFile s sourcePath destinationPath).2 = s) ∧
    ((HTTPStorageUploadFiles s fileMap).1 =
        Except.error "upload not supported for HTTP storage" ∧
      (HTTPStorageUploadFiles s fileMap).2 = s) ∧
    ((HTTPStorageDeleteFile s destinationPath).1 =
        Except.error "delete not supported for HTTP storage" ∧
      (HTTPStorageDeleteFile s destinationPath).2 = s) ∧
    ((HTTPStorageListFiles s pathStart).1 =
        Except.error "list files not supported for HTTP storage" ∧
      (HTTPStorageListFiles s pathStart).2 = s) ∧
    (∃ localPath,
      HTTPStorageDownloadFile
        { statusCode := 200, mkdirOk := true, createOk := true
          copyOk := true }
        "/tmp/video-converter" "http://host/video.mp4" "job-1" "" =
        Except.ok localPath) := by
  exact ⟨⟨rfl, rfl⟩, ⟨rfl, rfl⟩, ⟨rfl, rfl⟩, ⟨rfl, rfl⟩, ⟨_, rfl⟩⟩

/-- Claim C10: the builtin catalog holds exactly the five ladder profiles;
resolving any other name (such as 4k) silently yields the builtin 720p
profile at 1280 by 720 with 2500 kbps video and 128 kbps audio, so a
single-profile output referencing an unknown name is encoded with the
720p scale filter. -/
theorem unknownProfileFallsBackTo720p (name : String)
    (h : name ∉ ["240p", "360p", "480p", "720p", "1080p"]) :
    getProfileByName name = profile720p ∧
    getProfileByName "4k" = profile720p ∧
    profile720p.width = 1280 ∧
    profile720p.height = 720 ∧
    profile720p.videoBitrateKbps = 2500 ∧
    profile720p.audioBitrateKbps = 128 ∧
    builtinProfiles.map Prod.fst =
      ["240p", "360p", "480p", "720p", "1080p"] ∧
    "scale=1280:720" ∈
      buildProgressiveFFmpegArgs "in.mp4" "out/4k.mp4"
        (getProfileByName "4k") emptyFFmpegConfig := by
  simp only [List.mem_cons, List.not_mem_nil, or_false, not_or] at h
  obtain ⟨h1, h2, h3, h4, h5⟩ := h
  refine ⟨?_, by decide, rfl, rfl, rfl, rfl, by decide, by decide⟩
  have b1 : (name == "240p") = false := beq_eq_false_iff_ne.mpr h1
  have b2 : (name == "360p") = false := beq_eq_false_iff_ne.mpr h2
  have b3 : (name == "480p") = false := beq_eq_false_iff_ne.mpr h3
  have b4 : (name == "720p") = false := beq_eq_false_iff_ne.mpr h4
  have b5 : (name == "1080p") = false := beq_eq_false_iff_ne.mpr h5
  simp [getProfileByName, builtinProfiles, List.lookup, b1, b2, b3, b4, b5]

/-- Witness for claim C10 at the unknown profile name 4k. -/
theorem unknownProfileFallsBackTo720pWitness :
    getProfileByName "4k" = profile720p ∧
    getProfileByName "4k" = profile720p ∧
    profile720p.width = 1280 ∧
    profile720p.height = 720 ∧
    profile720p.videoBitrateKbps = 2500 ∧
    profile720p.audioBitrateKbps = 128 ∧
    builtinProfiles.map Prod.fst =
      ["240p", "360p", "480p", "720p", "1080p"] ∧
    "scale=1280:720" ∈
      buildProgressiveFFmpegArgs "in.mp4" "out/4k.mp4"
        (getProfileByName "4k") emptyFFmpegConfig :=
  unknownProfileFallsBackTo720p "4k" (by decide)

/-- Claim C1 counterexample: a job that fails at the validation stage
(local source present, validation fails) ends failed, yet the job-scoped
temporary workspace created by the download stage still exists — cleanup
runs only after a successful upload, refuting removal regardless of
outcome. -/
theorem cleanupSkippedOnValidateFailure :
    (processJob [("default", sampleTemplate)] validateFailEnv
      sampleJob 1 2).job.status.state = JobState.failed ∧
    (processJob [("default", sampleTemplate)] validateFailEnv
      sampleJob 1 2).tempDirExists = true := by
  exact ⟨rfl, rfl⟩

/-- Claim C1 (amended): the job-scoped temporary workspace is removed only
on the success path, after the upload stage succeeds; a failure at the
validate, transcode or upload stage leaves the already-created workspace
behind with the job failed and a non-empty error.  A download failure for
a nonexistent local source path still results in a failed state, a
non-empty error and no residual workspace, because the source is stat-ed
before the workspace directory is ever created. -/
theorem cleanupOnlyOnSuccess (catalog : List (String × JobTemplate))
    (env : PipelineEnv) (job : ConversionJob) (t1 t2 : Nat)
    (tmpl : JobTemplate)
    (hc : catalog.lookup job.template = some tmpl) :
    (env.sourceExists = true → env.validateOk = true →
      env.transcodeOk = true → env.uploadOk = true →
      (processJob catalog env job t1 t2).job.status.state =
        JobState.completed ∧
      (processJob catalog env job t1 t2).tempDirExists = false) ∧
    (env.sourceExists = false →
      (processJob catalog env job t1 t2).job.status.state =
        JobState.failed ∧
      (processJob catalog env job t1 t2).job.status.error ≠ "" ∧
      (processJob catalog env job t1 t2).tempDirExists = false) ∧
    (env.sourceExists = true →
      (env.validateOk = false ∨ env.transcodeOk = false ∨
        env.uploadOk = false) →
      (processJob catalog env job t1 t2).job.status.state =
        JobState.failed ∧
      (processJob catalog env job t1 t2).job.status.error ≠ "" ∧
      (processJob catalog env job t1 t2).tempDirExists = true) := by
  obtain ⟨se, vo, tr, uo⟩ := env
  refine ⟨?_, ?_, ?_⟩
  · intro h1 h2 h3 h4
    subst h1; subst h2; subst h3; subst h4
    simp [processJob, markProcessing_template, hc, executeConversion,
      copyLocalFile]
  · intro h1
    subst h1
    refine ⟨?_, ?_, ?_⟩ <;>
      simp [processJob, markProcessing_template, hc, executeConversion,
        copyLocalFile]
  · intro h1 h2
    subst h1
    cases vo <;> cases tr <;> cases uo <;>
      simp_all [processJob, markProcessing_template, hc, executeConversion,
        copyLocalFile]

/-- Witness for the amended claim C1 on a catalog holding the job
template. -/
theorem cleanupOnlyOnSuccessWitness :
    (allOkEnv.sourceExists = true → allOkEnv.validateOk = true →
      allOkEnv.transcodeOk = true → allOkEnv.uploadOk = true →
      (processJob [("default", sampleTemplate)] allOkEnv
        sampleJob 1 2).job.status.state = JobState.completed ∧
      (processJob [("default", sampleTemplate)] allOkEnv
        sampleJob 1 2).tempDirExists = false) ∧
    (allOkEnv.sourceExists = false →
      (processJob [("default", sampleTemplate)] allOkEnv
        sampleJob 1 2).job.status.state = JobState.failed ∧
      (processJob [("default", sampleTemplate)] allOkEnv
        sampleJob 1 2).job.status.error ≠ "" ∧
      (processJob [("default", sampleTemplate)] allOkEnv
        sampleJob 1 2).tempDirExists = false) ∧
    (allOkEnv.sourceExists = true →
      (allOkEnv.validateOk = false ∨ allOkEnv.transcodeOk = false ∨
        allOkEnv.uploadOk = false) →
      (processJob [("default", sampleTemplate)] allOkEnv
        sampleJob 1 2).job.status.state = JobState.failed ∧
      (processJob [("default", sampleTemplate)] allOkEnv
        sampleJob 1 2).job.status.error ≠ "" ∧
      (processJob [("default", sampleTemplate)] allOkEnv
        sampleJob 1 2).tempDirExists = true) :=
  cleanupOnlyOnSuccess [("default", sampleTemplate)] allOkEnv
    sampleJob 1 2 sampleTemplate (by decide)

/-- Claim C4: over the status records a job receives in its lifecycle
(pending at submission, processing at the start of processJob, then the
terminal record), every step is one of the forward transitions pending to
processing, processing to completed, processing to failed — never a
backward one — and CompletedAt is set on a record exactly when its state
is terminal. -/
theorem jobStateMonotone (catalog : List (String × JobTemplate))
    (env : PipelineEnv) (job : ConversionJob) (t0 t1 t2 : Nat) :
    List.Chain' (fun a b => forwardTransition a.state b.state = true)
      (jobLifecycleTrace catalog env job t0 t1 t2) ∧
    (∀ s ∈ jobLifecycleTrace catalog env job t0 t1 t2,
      s.completedAt.isSome = true ↔ terminalState s.state = true) := by
  have hstate :
      (processJob catalog env
        ((SubmitJob (newWorkerQueue 1) job t0).2.2) t1 t2).job.status.state =
        JobState.failed ∨
      (processJob catalog env
        ((SubmitJob (newWorkerQueue 1) job t0).2.2) t1 t2).job.status.state =
        JobState.completed := by
    cases hl : List.lookup
        ((SubmitJob (newWorkerQueue 1) job t0).2.2).template catalog with
    | none =>
      left
      simp [processJob, markProcessing_template, hl]
    | some tmpl =>
      cases hres : (executeConversion env).result with
      | error msg =>
        left
        simp [processJob, markProcessing_template, hl, hres]
      | ok u =>
        right
        simp [processJob, markProcessing_template, hl, hres]
  have hdone :
      (processJob catalog env
        ((SubmitJob (newWorkerQueue 1) job t0).2.2) t1
          t2).job.status.completedAt = some t2 := by
    cases hl : List.lookup
        ((SubmitJob (newWorkerQueue 1) job t0).2.2).template catalog with
    | none =>
      simp [processJob, markProcessing_template, hl]
    | some tmpl =>
      cases hres : (executeConversion env).result with
      | error msg => simp [processJob, markProcessing_template, hl, hres]
      | ok u => simp [processJob, markProcessing_template, hl, hres]
  constructor
  · simp only [jobLifecycleTrace, List.chain'_cons, List.chain'_singleton,
      and_true]
    constructor
    · simp [SubmitJob_job, submittedStatus, markProcessing,
        forwardTransition]
    · rcases hstate with h | h <;>
        simp [markProcessing, h, forwardTransition]
  · intro s hs
    simp only [jobLifecycleTrace, List.mem_cons, List.not_mem_nil,
      or_false] at hs
    rcases hs with h | h | h
    · subst h
      simp [SubmitJob_job, submittedStatus, terminalState]
    · subst h
      simp [SubmitJob_job, markProcessing, submittedStatus, terminalState]
    · subst h
      rw [hdone]
      rcases hstate with hst | hst <;> rw [hst] <;> simp [terminalState]

/-- Witness for claim C4 on a concrete lifecycle. -/
theorem jobStateMonotoneWitness :
    List.Chain' (fun a b => forwardTransition a.state b.state = true)
      (jobLifecycleTrace [("default", sampleTemplate)] allOkEnv
        sampleJob 0 1 2) ∧
    (∀ s ∈ jobLifecycleTrace [("default", sampleTemplate)] allOkEnv
        sampleJob 0 1 2,
      s.completedAt.isSome = true ↔ terminalState s.state = true) :=
  jobStateMonotone [("default", sampleTemplate)] allOkEnv sampleJob 0 1 2

/-- Claim C7: when the job template name is absent from the catalog the
job is marked failed with the template-not-found error and CompletedAt
stamped, no pipeline stage (download, validate, transcode, upload,
cleanup, notify) runs, no workspace is created, and there is no retry
(processJob returns directly). -/
theorem unknownTemplateFailsFast (catalog : List (String × JobTemplate))
    (env : PipelineEnv) (job : ConversionJob) (t1 t2 : Nat)
    (h : catalog.lookup job.template = none) :
    (processJob catalog env job t1 t2).job.status.state =
      JobState.failed ∧
    (processJob catalog env job t1 t2).job.status.error =
      "Job template '" ++ job.template ++ "' not found" ∧
    (processJob catalog env job t1 t2).job.status.error ≠ "" ∧
    (processJob catalog env job t1 t2).job.status.completedAt = some t2 ∧
    (processJob catalog env job t1 t2).stages = [] ∧
    (processJob catalog env job t1 t2).tempDirExists = false := by
  refine ⟨?_, ?_, ?_, ?_, ?_, ?_⟩
  · simp [processJob, markProcessing_template, h]
  · simp [processJob, markProcessing_template, h]
  · have he : (processJob catalog env job t1 t2).job.status.error =
        "Job template '" ++ job.template ++ "' not found" := by
      simp [processJob, markProcessing_template, h]
    rw [he]
    exact string_append3_ne_empty _ _ _ (by decide)
  · simp [processJob, markProcessing_template, h]
  · simp [processJob, markProcessing_template, h]
  · simp [processJob, markProcessing_template, h]

/-- Witness for claim C7 on an empty template catalog. -/
theorem unknownTemplateFailsFastWitness :
    (processJob [] allOkEnv sampleJob 1 2).job.status.state =
      JobState.failed ∧
    (processJob [] allOkEnv sampleJob 1 2).job.status.error =
      "Job template '" ++ sampleJob.template ++ "' not found" ∧
    (processJob [] allOkEnv sampleJob 1 2).job.status.error ≠ "" ∧
    (processJob [] allOkEnv sampleJob 1 2).job.status.completedAt =
      some 2 ∧
    (processJob [] allOkEnv sampleJob 1 2).stages = [] ∧
    (processJob [] allOkEnv sampleJob 1 2).tempDirExists = false :=
  unknownTemplateFailsFast [] allOkEnv sampleJob 1 2 rfl

theorem mem_buildProgressiveFFmpegArgs_fixed (inputPath outputPath : String)
    (profile : ProfileConfig) (cfg : JobFFmpegConfig) :
    "-movflags" ∈ buildProgressiveFFmpegArgs inputPath outputPath
      profile cfg ∧
    "+faststart" ∈ buildProgressiveFFmpegArgs inputPath outputPath
      profile cfg ∧
    "-pix_fmt" ∈ buildProgressiveFFmpegArgs inputPath outputPath
      profile cfg ∧
    "yuv420p" ∈ buildProgressiveFFmpegArgs inputPath outputPath
      profile cfg := by
  simp only [buildProgressiveFFmpegArgs]
  split_ifs <;> simp_all

/-- Claim C5 counterexample: at the 720p builtin profile with empty
encoder settings, the HLS argument vector contains neither the pixel
format flag nor the yuv420p value, while the progressive vector does, so
the pixel format is not forced for segmented output. -/
theorem hlsArgsLackPixelFormat :
    "-pix_fmt" ∉
      buildHLSFFmpegArgs "in.mp4" "out/720p" profile720p 6
        emptyFFmpegConfig ∧
    "yuv420p" ∉
      buildHLSFFmpegArgs "in.mp4" "out/720p" profile720p 6
        emptyFFmpegConfig ∧
    "-pix_fmt" ∈
      buildProgressiveFFmpegArgs "in.mp4" "out/720p.mp4" profile720p
        emptyFFmpegConfig := by
  refine ⟨by decide, by decide, by decide⟩

set_option maxHeartbeats 3200000 in
/-- Claim C5 (amended): for every profile, both encoder invocations scale
to the declared width and height, cap the video bitrate at the target
with a rate-control buffer of exactly twice the target, apply the
declared audio bitrate or default to 128 kbps when unset, and apply the
declared preset, hardware acceleration and extra arguments; the
broadly-compatible yuv420p pixel format however is forced only on the
progressive invocation, not on the segmented (HLS) one. -/
theorem encoderArgsSpec (inputPath outputPath outputDir : String)
    (profile : ProfileConfig) (segmentLength : Nat)
    (cfg : JobFFmpegConfig) :
    ("scale=" ++ toString profile.width ++ ":" ++
        toString profile.height) ∈
      buildProgressiveFFmpegArgs inputPath outputPath profile cfg ∧
    ("scale=" ++ toString profile.width ++ ":" ++
        toString profile.height) ∈
      buildHLSFFmpegArgs inputPath outputDir profile segmentLength cfg ∧
    (toString profile.videoBitrateKbps ++ "k") ∈
      buildProgressiveFFmpegArgs inputPath outputPath profile cfg ∧
    (toString profile.videoBitrateKbps ++ "k") ∈
      buildHLSFFmpegArgs inputPath outputDir profile segmentLength cfg ∧
    ("-maxrate" ∈
        buildProgressiveFFmpegArgs inputPath outputPath profile cfg ∧
      "-maxrate" ∈
        buildHLSFFmpegArgs inputPath outputDir profile segmentLength cfg) ∧
    ((toString (profile.videoBitrateKbps * 2) ++ "k") ∈
        buildProgressiveFFmpegArgs inputPath outputPath profile cfg ∧
      (toString (profile.videoBitrateKbps * 2) ++ "k") ∈
        buildHLSFFmpegArgs inputPath outputDir profile segmentLength cfg) ∧
    ("-bufsize" ∈
        buildProgressiveFFmpegArgs inputPath outputPath profile cfg ∧
      "-bufsize" ∈
        buildHLSFFmpegArgs inputPath outputDir profile segmentLength cfg) ∧
    (0 < profile.audioBitrateKbps →
      (toString profile.audioBitrateKbps ++ "k") ∈
        buildProgressiveFFmpegArgs inputPath outputPath profile cfg ∧
      (toString profile.audioBitrateKbps ++ "k") ∈
        buildHLSFFmpegArgs inputPath outputDir profile segmentLength cfg) ∧
    (profile.audioBitrateKbps = 0 →
      "128k" ∈
        buildProgressiveFFmpegArgs inputPath outputPath profile cfg ∧
      "128k" ∈
        buildHLSFFmpegArgs inputPath outputDir profile segmentLength cfg) ∧
    (cfg.preset ≠ "" →
      ("-preset" ∈
          buildProgressiveFFmpegArgs inputPath outputPath profile cfg ∧
        cfg.preset ∈
          buildProgressiveFFmpegArgs inputPath outputPath profile cfg) ∧
      ("-preset" ∈
          buildHLSFFmpegArgs inputPath outputDir profile
            segmentLength cfg ∧
        cfg.preset ∈
          buildHLSFFmpegArgs inputPath outputDir profile
            segmentLength cfg)) ∧
    (cfg.hwAccel ≠ "" →
      ("-hwaccel" ∈
          buildProgressiveFFmpegArgs inputPath outputPath profile cfg ∧
        cfg.hwAccel ∈
          buildProgressiveFFmpegArgs inputPath outputPath profile cfg) ∧
      ("-hwaccel" ∈
          buildHLSFFmpegArgs inputPath outputDir profile
            segmentLength cfg ∧
        cfg.hwAccel ∈
          buildHLSFFmpegArgs inputPath outputDir profile
            segmentLength cfg)) ∧
    (∀ a ∈ cfg.extraArgs,
      a ∈ buildProgressiveFFmpegArgs inputPath outputPath profile cfg ∧
      a ∈ buildHLSFFmpegArgs inputPath outputDir profile
        segmentLength cfg) ∧
    ("-pix_fmt" ∈
        buildProgressiveFFmpegArgs inputPath outputPath profile cfg ∧
      "yuv420p" ∈
        buildProgressiveFFmpegArgs inputPath outputPath profile cfg ∧
      "+faststart" ∈
        buildProgressiveFFmpegArgs inputPath outputPath profile cfg) := by
  refine ⟨?_, ?_, ?_, ?_, ?_, ?_, ?_, ?_, ?_, ?_, ?_, ?_, ?_⟩ <;>
    · intros
      simp only [buildProgressiveFFmpegArgs, buildHLSFFmpegArgs]
      split_ifs <;> simp_all

/-- Witness for the amended claim C5 at the 720p builtin profile. -/
theorem encoderArgsSpecWitness :
    ("scale=" ++ toString profile720p.width ++ ":" ++
        toString profile720p.height) ∈
      buildProgressiveFFmpegArgs "in.mp4" "out.mp4" profile720p
        emptyFFmpegConfig ∧
    ("scale=" ++ toString profile720p.width ++ ":" ++
        toString profile720p.height) ∈
      buildHLSFFmpegArgs "in.mp4" "out" profile720p 6 emptyFFmpegConfig ∧
    (toString profile720p.videoBitrateKbps ++ "k") ∈
      buildProgressiveFFmpegArgs "in.mp4" "out.mp4" profile720p
        emptyFFmpegConfig ∧
    (toString profile720p.videoBitrateKbps ++ "k") ∈
      buildHLSFFmpegArgs "in.mp4" "out" profile720p 6 emptyFFmpegConfig ∧
    ("-maxrate" ∈
        buildProgressiveFFmpegArgs "in.mp4" "out.mp4" profile720p
          emptyFFmpegConfig ∧
      "-maxrate" ∈
        buildHLSFFmpegArgs "in.mp4" "out" profile720p 6
          emptyFFmpegConfig) ∧
    ((toString (profile720p.videoBitrateKbps * 2) ++ "k") ∈
        buildProgressiveFFmpegArgs "in.mp4" "out.mp4" profile720p
          emptyFFmpegConfig ∧
      (toString (profile720p.videoBitrateKbps * 2) ++ "k") ∈
        buildHLSFFmpegArgs "in.mp4" "out" profile720p 6
          emptyFFmpegConfig) ∧
    ("-bufsize" ∈
        buildProgressiveFFmpegArgs "in.mp4" "out.mp4" profile720p
          emptyFFmpegConfig ∧
      "-bufsize" ∈
        buildHLSFFmpegArgs "in.mp4" "out" profile720p 6
          emptyFFmpegConfig) ∧
    (0 < profile720p.audioBitrateKbps →
      (toString profile720p.audioBitrateKbps ++ "k") ∈
        buildProgressiveFFmpegArgs "in.mp4" "out.mp4" profile720p
          emptyFFmpegConfig ∧
      (toString profile720p.audioBitrateKbps ++ "k") ∈
        buildHLSFFmpegArgs "in.mp4" "out" profile720p 6
          emptyFFmpegConfig) ∧
    (profile720p.audioBitrateKbps = 0 →
      "128k" ∈
        buildProgressiveFFmpegArgs "in.mp4" "out.mp4" profile720p
          emptyFFmpegConfig ∧
      "128k" ∈
        buildHLSFFmpegArgs "in.mp4" "out" profile720p 6
          emptyFFmpegConfig) ∧
    (emptyFFmpegConfig.preset ≠ "" →
      ("-preset" ∈
          buildProgressiveFFmpegArgs "in.mp4" "out.mp4" profile720p
            emptyFFmpegConfig ∧
        emptyFFmpegConfig.preset ∈
          buildProgressiveFFmpegArgs "in.mp4" "out.mp4" profile720p
            emptyFFmpegConfig) ∧
      ("-preset" ∈
          buildHLSFFmpegArgs "in.mp4" "out" profile720p 6
            emptyFFmpegConfig ∧
        emptyFFmpegConfig.preset ∈
          buildHLSFFmpegArgs "in.mp4" "out" profile720p 6
            emptyFFmpegConfig)) ∧
    (emptyFFmpegConfig.hwAccel ≠ "" →
      ("-hwaccel" ∈
          buildProgressiveFFmpegArgs "in.mp4" "out.mp4" profile720p
            emptyFFmpegConfig ∧
        emptyFFmpegConfig.hwAccel ∈
          buildProgressiveFFmpegArgs "in.mp4" "out.mp4" profile720p
            emptyFFmpegConfig) ∧
      ("-hwaccel" ∈
          buildHLSFFmpegArgs "in.mp4" "out" profile720p 6
            emptyFFmpegConfig ∧
        emptyFFmpegConfig.hwAccel ∈
          buildHLSFFmpegArgs "in.mp4" "out" profile720p 6
            emptyFFmpegConfig)) ∧
    (∀ a ∈ emptyFFmpegConfig.extraArgs,
      a ∈ buildProgressiveFFmpegArgs "in.mp4" "out.mp4" profile720p
        emptyFFmpegConfig ∧
      a ∈ buildHLSFFmpegArgs "in.mp4" "out" profile720p 6
        emptyFFmpegConfig) ∧
    ("-pix_fmt" ∈
        buildProgressiveFFmpegArgs "in.mp4" "out.mp4" profile720p
          emptyFFmpegConfig ∧
      "yuv420p" ∈
        buildProgressiveFFmpegArgs "in.mp4" "out.mp4" profile720p
          emptyFFmpegConfig ∧
      "+faststart" ∈
        buildProgressiveFFmpegArgs "in.mp4" "out.mp4" profile720p
          emptyFFmpegConfig) :=
  encoderArgsSpec "in.mp4" "out.mp4" "out" profile720p 6 emptyFFmpegConfig

/-- A transcoding environment where every encode and stat succeeds and
every profile directory globs exactly one segment file. -/
def sampleTranscodeEnv : TranscodeEnv :=
  { encodeOk := fun _ => true
    statOk := fun _ => true
    fileSize := fun _ => 0
    fileHash := fun _ => ""
    segmentsFor := fun d => [d ++ "/seg_000.ts"] }

/-- A segmented OutputSpec with a one-rung ladder, for witnesses. -/
def sampleHLSOutput : OutputConfig :=
  { name := "hls", package := "hls", profiles := [profile720p]
    profile := "", segmentLengthS := 0, container := ""
    destination := "" }

/-- A progressive OutputSpec with only a single profile name, for
witnesses. -/
def sampleProgressiveOutput : OutputConfig :=
  { name := "progressive", package := "progressive", profiles := []
    profile := "720p", segmentLengthS := 0, container := ""
    destination := "" }

theorem transcodeHLSProfile_ok (env : TranscodeEnv)
    (inputPath outputDir : String) (p : ProfileConfig)
    (output : OutputConfig) (cfg : JobFFmpegConfig)
    (henc : ∀ args, env.encodeOk args = true)
    (hstat : ∀ path, env.statOk path = true) :
    ∃ fs args,
      transcodeHLSProfile env inputPath p outputDir output cfg =
        Except.ok (fs, args) ∧
      fs.map OutputFile.path =
        (outputDir ++ "/" ++ p.name ++ "/" ++ p.name ++ ".m3u8") ::
          env.segmentsFor (outputDir ++ "/" ++ p.name) := by
  have hseg : (env.segmentsFor (outputDir ++ "/" ++ p.name)).filterMap
      (fun s => match createOutputFile env s "video/mp2t" with
        | Except.ok f => some f
        | Except.error _ => none) =
      (env.segmentsFor (outputDir ++ "/" ++ p.name)).map
        (fun s => OutputFile.mk s (env.fileSize s) (env.fileHash s)
          "video/mp2t") := by
    apply List.filterMap_eq_map_iff_forall_eq_some.mpr
    intro s _
    simp [createOutputFile, hstat]
  have hpl : createOutputFile env
      (outputDir ++ "/" ++ p.name ++ "/" ++ p.name ++ ".m3u8")
      "application/vnd.apple.mpegurl" =
      Except.ok (OutputFile.mk
        (outputDir ++ "/" ++ p.name ++ "/" ++ p.name ++ ".m3u8")
        (env.fileSize
          (outputDir ++ "/" ++ p.name ++ "/" ++ p.name ++ ".m3u8"))
        (env.fileHash
          (outputDir ++ "/" ++ p.name ++ "/" ++ p.name ++ ".m3u8"))
        "application/vnd.apple.mpegurl") := by
    simp [createOutputFile, hstat]
  refine ⟨OutputFile.mk
      (outputDir ++ "/" ++ p.name ++ "/" ++ p.name ++ ".m3u8")
      (env.fileSize
        (outputDir ++ "/" ++ p.name ++ "/" ++ p.name ++ ".m3u8"))
      (env.fileHash
        (outputDir ++ "/" ++ p.name ++ "/" ++ p.name ++ ".m3u8"))
      "application/vnd.apple.mpegurl" ::
        (env.segmentsFor (outputDir ++ "/" ++ p.name)).map
          (fun s => OutputFile.mk s (env.fileSize s) (env.fileHash s)
            "video/mp2t"),
    buildHLSFFmpegArgs inputPath (outputDir ++ "/" ++ p.name) p
      (if output.segmentLengthS = 0 then 6 else output.segmentLengthS)
      cfg, ?_, ?_⟩
  · simp only [transcodeHLSProfile]
    rw [hseg, hpl]
    simp [henc]
  · simp only [List.map_cons, List.map_map]
    exact congrArg₂ List.cons rfl (List.map_id _)

theorem transcodeHLSProfiles_ok (env : TranscodeEnv)
    (inputPath outputDir : String) (output : OutputConfig)
    (cfg : JobFFmpegConfig)
    (henc : ∀ args, env.encodeOk args = true)
    (hstat : ∀ path, env.statOk path = true) :
    ∀ ps : List ProfileConfig, ∃ fs invs,
      transcodeHLSProfiles env inputPath outputDir output cfg ps =
        Except.ok (fs, invs) ∧
      invs.length = ps.length ∧
      (∀ p ∈ ps,
        (outputDir ++ "/" ++ p.name ++ "/" ++ p.name ++ ".m3u8") ∈
          fs.map OutputFile.path) ∧
      (∀ p ∈ ps, ∀ s ∈ env.segmentsFor (outputDir ++ "/" ++ p.name),
        s ∈ fs.map OutputFile.path) := by
  intro ps
  induction ps with
  | nil => exact ⟨[], [], rfl, rfl, by simp, by simp⟩
  | cons p rest ih =>
    obtain ⟨fs, invs, heq, hlen, hpl, hsg⟩ := ih
    obtain ⟨fsp, argsp, heqp, hmapp⟩ :=
      transcodeHLSProfile_ok env inputPath outputDir p output cfg henc
        hstat
    refine ⟨fsp ++ fs, argsp :: invs, ?_, ?_, ?_, ?_⟩
    · unfold transcodeHLSProfiles
      rw [heqp, heq]
    · simp [hlen]
    · intro q hq
      rcases List.mem_cons.mp hq with hq | hq
      · subst hq
        rw [List.map_append]
        apply List.mem_append_left
        rw [hmapp]
        exact List.mem_cons_self _ _
      · rw [List.map_append]
        exact List.mem_append_right _ (hpl q hq)
    · intro q hq s hs
      rcases List.mem_cons.mp hq with hq | hq
      · subst hq
        rw [List.map_append]
        apply List.mem_append_left
        rw [hmapp]
        exact List.mem_cons_of_mem _ hs
      · rw [List.map_append]
        exact List.mem_append_right _ (hsg q hq s hs)

/-- Claim C6: for a segmented OutputSpec with a non-empty profile list the
orchestrator writes exactly one master manifest, whose entries list the
profiles in template-declared order — same count as the list, no sorting
and no de-duplication — each with bandwidth
(videoBitrateKbps + audioBitrateKbps) * 1000; one encode is issued per
profile, the master manifest is the first output file, and each profile
contributes its rendition playlist and every globbed segment. -/
theorem masterManifestSpec (env : TranscodeEnv)
    (inputPath outputDir : String) (output : OutputConfig)
    (cfg : JobFFmpegConfig)
    (hne : output.profiles ≠ [])
    (henc : ∀ args, env.encodeOk args = true)
    (hstat : ∀ path, env.statOk path = true) :
    (∃ co invs,
      transcodeHLS env inputPath output outputDir cfg =
        Except.ok (co,
          [(outputDir ++ "/" ++ "master.m3u8",
            createMasterPlaylist output.profiles)], invs) ∧
      invs.length = output.profiles.length ∧
      (co.files.map OutputFile.path).head? =
        some (outputDir ++ "/" ++ "master.m3u8") ∧
      (∀ p ∈ output.profiles,
        (outputDir ++ "/" ++ p.name ++ "/" ++ p.name ++ ".m3u8") ∈
          co.files.map OutputFile.path) ∧
      (∀ p ∈ output.profiles,
        ∀ s ∈ env.segmentsFor (outputDir ++ "/" ++ p.name),
          s ∈ co.files.map OutputFile.path)) ∧
    (output.profiles.map masterPlaylistEntry).length =
      output.profiles.length ∧
    (∀ i : Nat, ∀ p, output.profiles[i]? = some p →
      (output.profiles.map masterPlaylistEntry)[i]? =
        some ("#EXT-X-STREAM-INF:BANDWIDTH=" ++
          toString ((p.videoBitrateKbps + p.audioBitrateKbps) * 1000) ++
          masterPlaylistEntryTail p)) := by
  refine ⟨?_, by simp, ?_⟩
  · have hm : createOutputFile env (outputDir ++ "/" ++ "master.m3u8")
        "application/vnd.apple.mpegurl" =
        Except.ok (OutputFile.mk (outputDir ++ "/" ++ "master.m3u8")
          (env.fileSize (outputDir ++ "/" ++ "master.m3u8"))
          (env.fileHash (outputDir ++ "/" ++ "master.m3u8"))
          "application/vnd.apple.mpegurl") := by
      simp [createOutputFile, hstat]
    obtain ⟨fs, invs, heq, hlen, hpl, hsg⟩ :=
      transcodeHLSProfiles_ok env inputPath outputDir output cfg henc
        hstat output.profiles
    refine ⟨{ name := output.name, type := "hls"
              profile := output.profile
              files := OutputFile.mk (outputDir ++ "/" ++ "master.m3u8")
                (env.fileSize (outputDir ++ "/" ++ "master.m3u8"))
                (env.fileHash (outputDir ++ "/" ++ "master.m3u8"))
                "application/vnd.apple.mpegurl" :: fs
              metadata := [("package", "hls")] }, invs, ?_, hlen, ?_, ?_,
      ?_⟩
    · simp only [transcodeHLS]
      rw [if_pos hne, hm, heq]
    · simp
    · intro p hp
      simp only [List.map_cons, List.mem_cons]
      exact Or.inr (hpl p hp)
    · intro p hp s hs
      simp only [List.map_cons, List.mem_cons]
      exact Or.inr (hsg p hp s hs)
  · intro i p h
    simp [List.getElem?_map, h, masterPlaylistEntry]

/-- Witness for claim C6 on a one-rung ladder in an environment where
every effect succeeds. -/
theorem masterManifestSpecWitness :
    (∃ co invs,
      transcodeHLS sampleTranscodeEnv "in.mp4" sampleHLSOutput "out"
          emptyFFmpegConfig =
        Except.ok (co,
          [("out" ++ "/" ++ "master.m3u8",
            createMasterPlaylist sampleHLSOutput.profiles)], invs) ∧
      invs.length = sampleHLSOutput.profiles.length ∧
      (co.files.map OutputFile.path).head? =
        some ("out" ++ "/" ++ "master.m3u8") ∧
      (∀ p ∈ sampleHLSOutput.profiles,
        ("out" ++ "/" ++ p.name ++ "/" ++ p.name ++ ".m3u8") ∈
          co.files.map OutputFile.path) ∧
      (∀ p ∈ sampleHLSOutput.profiles,
        ∀ s ∈ sampleTranscodeEnv.segmentsFor ("out" ++ "/" ++ p.name),
          s ∈ co.files.map OutputFile.path)) ∧
    (sampleHLSOutput.profiles.map masterPlaylistEntry).length =
      sampleHLSOutput.profiles.length ∧
    (∀ i : Nat, ∀ p, sampleHLSOutput.profiles[i]? = some p →
      (sampleHLSOutput.profiles.map masterPlaylistEntry)[i]? =
        some ("#EXT-X-STREAM-INF:BANDWIDTH=" ++
          toString ((p.videoBitrateKbps + p.audioBitrateKbps) * 1000) ++
          masterPlaylistEntryTail p)) :=
  masterManifestSpec sampleTranscodeEnv "in.mp4" "out" sampleHLSOutput
    emptyFFmpegConfig (by decide) (fun _ => rfl) (fun _ => rfl)

/-- Claim C8: for a progressive OutputSpec carrying only a single profile
name, the orchestrator produces exactly one output file, named by the
resolved profile with the declared container (or mp4 when unspecified) as
extension and matching MIME type, through exactly one encoder invocation
that carries the fast-start movflags flag. -/
theorem progressiveSingleProfileSpec (env : TranscodeEnv)
    (inputPath outputDir : String) (output : OutputConfig)
    (cfg : JobFFmpegConfig)
    (hp : output.profiles = []) (hn : output.profile ≠ "")
    (henc : ∀ args, env.encodeOk args = true)
    (hstat : ∀ path, env.statOk path = true) :
    ∃ co f inv,
      transcodeProgressive env inputPath output outputDir cfg =
        Except.ok (co, [inv]) ∧
      co.files = [f] ∧
      f.path = outputDir ++ "/" ++
        ((getProfileByName output.profile).name ++ "." ++
          (if output.container = "" then "mp4" else output.container)) ∧
      f.mimeType = getMimeType
        (if output.container = "" then "mp4" else output.container) ∧
      "-movflags" ∈ inv ∧
      "+faststart" ∈ inv := by
  have hof : createOutputFile env
      (outputDir ++ "/" ++
        ((getProfileByName output.profile).name ++ "." ++
          (if output.container = "" then "mp4" else output.container)))
      (getMimeType
        (if output.container = "" then "mp4" else output.container)) =
      Except.ok (OutputFile.mk
        (outputDir ++ "/" ++
          ((getProfileByName output.profile).name ++ "." ++
            (if output.container = "" then "mp4" else output.container)))
        (env.fileSize (outputDir ++ "/" ++
          ((getProfileByName output.profile).name ++ "." ++
            (if output.container = "" then "mp4" else output.container))))
        (env.fileHash (outputDir ++ "/" ++
          ((getProfileByName output.profile).name ++ "." ++
            (if output.container = "" then "mp4" else output.container))))
        (getMimeType
          (if output.container = "" then "mp4" else
            output.container))) := by
    simp [createOutputFile, hstat]
  have hstep : transcodeProgressiveProfile env inputPath
      (getProfileByName output.profile) outputDir output cfg =
      Except.ok (OutputFile.mk
        (outputDir ++ "/" ++
          ((getProfileByName output.profile).name ++ "." ++
            (if output.container = "" then "mp4" else output.container)))
        (env.fileSize (outputDir ++ "/" ++
          ((getProfileByName output.profile).name ++ "." ++
            (if output.container = "" then "mp4" else output.container))))
        (env.fileHash (outputDir ++ "/" ++
          ((getProfileByName output.profile).name ++ "." ++
            (if output.container = "" then "mp4" else output.container))))
        (getMimeType
          (if output.container = "" then "mp4" else output.container)),
        buildProgressiveFFmpegArgs inputPath
          (outputDir ++ "/" ++
            ((getProfileByName output.profile).name ++ "." ++
              (if output.container = "" then "mp4" else
                output.container)))
          (getProfileByName output.profile) cfg) := by
    simp only [transcodeProgressiveProfile]
    rw [hof]
    simp [henc]
  refine ⟨{ name := output.name, type := "progressive"
            profile := output.profile
            files := [OutputFile.mk
              (outputDir ++ "/" ++
                ((getProfileByName output.profile).name ++ "." ++
                  (if output.container = "" then "mp4" else
                    output.container)))
              (env.fileSize (outputDir ++ "/" ++
                ((getProfileByName output.profile).name ++ "." ++
                  (if output.container = "" then "mp4" else
                    output.container))))
              (env.fileHash (outputDir ++ "/" ++
                ((getProfileByName output.profile).name ++ "." ++
                  (if output.container = "" then "mp4" else
                    output.container))))
              (getMimeType
                (if output.container = "" then "mp4" else
                  output.container))]
            metadata := [("package", "progressive"),
                         ("container", output.container)] },
    OutputFile.mk
      (outputDir ++ "/" ++
        ((getProfileByName output.profile).name ++ "." ++
          (if output.container = "" then "mp4" else output.container)))
      (env.fileSize (outputDir ++ "/" ++
        ((getProfileByName output.profile).name ++ "." ++
          (if output.container = "" then "mp4" else output.container))))
      (env.fileHash (outputDir ++ "/" ++
        ((getProfileByName output.profile).name ++ "." ++
          (if output.container = "" then "mp4" else output.container))))
      (getMimeType
        (if output.container = "" then "mp4" else output.container)),
    buildProgressiveFFmpegArgs inputPath
      (outputDir ++ "/" ++
        ((getProfileByName output.profile).name ++ "." ++
          (if output.container = "" then "mp4" else output.container)))
      (getProfileByName output.profile) cfg, ?_, rfl, rfl, rfl, ?_, ?_⟩
  · simp only [transcodeProgressive]
    rw [hp]
    rw [if_neg (by simp)]
    rw [if_pos hn, hstep]
  · exact (mem_buildProgressiveFFmpegArgs_fixed _ _ _ _).1
  · exact (mem_buildProgressiveFFmpegArgs_fixed _ _ _ _).2.1

/-- Witness for claim C8 on the single-profile progressive OutputSpec
named 720p. -/
theorem progressiveSingleProfileSpecWitness :
    ∃ co f inv,
      transcodeProgressive sampleTranscodeEnv "in.mp4"
          sampleProgressiveOutput "out" emptyFFmpegConfig =
        Except.ok (co, [inv]) ∧
      co.files = [f] ∧
      f.path = "out" ++ "/" ++
        ((getProfileByName sampleProgressiveOutput.profile).name ++ "." ++
          (if sampleProgressiveOutput.container = "" then "mp4" else
            sampleProgressiveOutput.container)) ∧
      f.mimeType = getMimeType
        (if sampleProgressiveOutput.container = "" then "mp4" else
          sampleProgressiveOutput.container) ∧
      "-movflags" ∈ inv ∧
      "+faststart" ∈ inv :=
  progressiveSingleProfileSpec sampleTranscodeEnv "in.mp4" "out"
    sampleProgressiveOutput emptyFFmpegConfig rfl (by decide)
    (fun _ => rfl) (fun _ => rfl)

end VCS
